import Mathlib

/-!
Verification development for the brain-dev analyzer core: the coverage-gap
analyzer, the refactoring heuristics, the documentation analyzer, the
security scanner, the test-code synthesizer and their shared result
records. The repository ships the configuration module and the full test
suite; the analyzer and generator modules themselves are not part of the
source tree available here, so every definition below is modelled from the
specification document (section references given per definition) and is
marked accordingly.
-/

/-- Modelled from the spec: input record of the missing analyzer module
(spec section 3, BehaviorPattern): an observed event sequence with a support
fraction and an occurrence count. Support is a real fraction in the source
language; it is modelled as a rational number. -/
structure BehaviorPattern where
  sequence : List String
  support : ℚ
  occurrence_count : ℕ
  deriving DecidableEq

/-- Modelled from the spec: input record of the missing analyzer module
(spec section 3, CodeSymbol): a parsed function, class or variable. Absent
docstring or source text is a first-class unset state, modelled with
Option. -/
structure CodeSymbol where
  name : String
  symbol_type : String
  file_path : String
  line : ℕ
  docstring : Option String
  source_code : Option String
  deriving DecidableEq

/-- Modelled from the spec: dictionary value type used by the dict-export
contract of the result records (spec section 6). -/
inductive DVal where
  | str : String → DVal
  | rat : ℚ → DVal
  | nat : ℕ → DVal
  | strList : List String → DVal
  | null : DVal
  deriving DecidableEq

/-- Modelled from the spec: result record of the missing analyzer module
(spec section 3, CoverageGap): an observed pattern lacking a matching entry
in the known-tested-pattern set. -/
structure CoverageGap where
  gap_id : String
  pattern : List String
  support : ℚ
  priority : String
  suggested_test_name : String
  suggested_test_file : String
  description : String
  deriving DecidableEq

/-- Modelled from the spec: dict-export of CoverageGap. The export renames
suggested_test_name to the key "suggested_test" and suggested_test_file to
"suggested_file" (spec section 6, key renaming contract). -/
def CoverageGap.to_dict (g : CoverageGap) : List (String × DVal) :=
  [("gap_id", DVal.str g.gap_id),
   ("pattern", DVal.strList g.pattern),
   ("support", DVal.rat g.support),
   ("priority", DVal.str g.priority),
   ("suggested_test", DVal.str g.suggested_test_name),
   ("suggested_file", DVal.str g.suggested_test_file),
   ("description", DVal.str g.description)]

/-- Modelled from the spec: result record of the missing analyzer module
(spec section 3, RefactorSuggestion): a heuristic code-quality finding with
optional code_before and code_after snippets defaulting to empty. -/
structure RefactorSuggestion where
  suggestion_id : String
  suggestion_type : String
  location : String
  reason : String
  confidence : ℚ
  code_before : String
  code_after : String
  deriving DecidableEq

/-- Modelled from the spec: dict-export of RefactorSuggestion. The export
renames the internal field suggestion_type to the key "type" (spec section
6, key renaming contract). -/
def RefactorSuggestion.to_dict (r : RefactorSuggestion) : List (String × DVal) :=
  [("suggestion_id", DVal.str r.suggestion_id),
   ("type", DVal.str r.suggestion_type),
   ("location", DVal.str r.location),
   ("reason", DVal.str r.reason),
   ("confidence", DVal.rat r.confidence),
   ("code_before", DVal.str r.code_before),
   ("code_after", DVal.str r.code_after)]

/-- Modelled from the spec: result record of the missing analyzer module
(spec section 3, DocSuggestion): a documentation gap with doc_type either
"missing" or "incomplete". -/
structure DocSuggestion where
  suggestion_id : String
  symbol_name : String
  symbol_type : String
  location : String
  doc_type : String
  suggested_doc : String
  confidence : ℚ
  deriving DecidableEq

/-- Modelled from the spec: result record of the missing analyzer module
(spec section 3, SecurityIssue): a regex-matched vulnerability indicator
with an optional CWE identifier. -/
structure SecurityIssue where
  issue_id : String
  severity : String
  category : String
  location : String
  description : String
  recommendation : String
  confidence : ℚ
  cwe_id : Option String
  deriving DecidableEq

/-- Modelled from the spec: generated-test record of the missing generator
module (spec section 3, SuggestedUnitCase): synthesized test code for a gap
together with the framework and style it was rendered for. -/
structure SuggestedUnitCase where
  test_name : String
  test_file : String
  test_code : String
  covers_pattern : List String
  framework : String
  style : String
  deriving DecidableEq

/-- Modelled from the spec: the exported name TestSuggestion is a binding of
the same record type as SuggestedUnitCase (spec section 9, design note on
class aliases). -/
abbrev TestSuggestion := SuggestedUnitCase

/-- Modelled from the spec: the exported name GeneratedTest is a binding of
the same record type as SuggestedUnitCase (spec section 9, design note on
class aliases). -/
abbrev GeneratedTest := SuggestedUnitCase

/-- Substring test on the character lists underlying two strings; the
needle is the second argument. -/
def contains_sub (s pat : String) : Bool :=
  decide (pat.data <:+: s.data)

/-- Take the first n characters of a string. -/
def string_take (s : String) (n : ℕ) : String :=
  ⟨s.data.take n⟩

/-- Lowercase every character of a string. -/
def string_lower (s : String) : String :=
  ⟨s.data.map Char.toLower⟩

/-- Count the occurrences of a pattern among the suffixes of a character
list (overlapping occurrences each count once). -/
def count_occurs (pat : List Char) : List Char → ℕ
  | [] => 0
  | c :: rest => (if pat.isPrefixOf (c :: rest) then 1 else 0) + count_occurs pat rest

/-! ## CoverageAnalyzer (spec section 4.1) -/

/-- Modelled from the spec: the missing CoverageAnalyzer class of the
analyzer module, holding the configured minimum support threshold. -/
structure CoverageAnalyzer where
  min_support : ℚ
  deriving DecidableEq

/-- Modelled from the spec: priority staircase on support used by the
missing CoverageAnalyzer (spec section 4.1): at least 0.30 critical, at
least 0.20 high, at least 0.10 medium, below that low, each band inclusive
on its lower bound. -/
def priority_for_support (s : ℚ) : String :=
  if 3/10 ≤ s then "critical"
  else if 2/10 ≤ s then "high"
  else if 1/10 ≤ s then "medium"
  else "low"

/-- Modelled from the spec: suggested test name derived from the event
sequence, of the shape test_<joined event tokens>_flow (spec section 4.1). -/
def suggested_name_for (seq : List String) : String :=
  "test_" ++ String.intercalate "_" seq ++ "_flow"

/-- Modelled from the spec: suggested test file path under a tests/ root
with a language-appropriate suffix (spec section 4.1). -/
def suggested_file_for (seq : List String) : String :=
  "tests/test_" ++ String.intercalate "_" seq ++ ".py"

/-- Modelled from the spec: the coverage gap built for one surviving
observed pattern; the id is sequential within one analysis call. -/
def gap_for (idx : ℕ) (p : BehaviorPattern) : CoverageGap :=
  { gap_id := "gap_" ++ toString idx,
    pattern := p.sequence,
    support := p.support,
    priority := priority_for_support p.support,
    suggested_test_name := suggested_name_for p.sequence,
    suggested_test_file := suggested_file_for p.sequence,
    description := "Observed flow " ++ String.intercalate " -> " p.sequence ++ " is not covered by tests" }

/-- Modelled from the spec: build one gap per surviving pattern with
sequential call-scoped ids. -/
def gaps_from : ℕ → List BehaviorPattern → List CoverageGap
  | _, [] => []
  | idx, p :: ps => gap_for idx p :: gaps_from (idx + 1) ps

/-- Ordering used to sort gaps by support descending. -/
def support_ge (g1 g2 : CoverageGap) : Prop :=
  g2.support ≤ g1.support

instance : DecidableRel support_ge :=
  fun g1 g2 => inferInstanceAs (Decidable (g2.support ≤ g1.support))

/-- Modelled from the spec: the missing analyze_gaps method of
CoverageAnalyzer (spec section 4.1). Discard observed patterns below the
configured minimum support, discard patterns whose sequence exactly equals
a known tested sequence, build a prioritized gap per survivor and sort the
result by support descending with a stable insertion sort. -/
def CoverageAnalyzer.analyze_gaps (a : CoverageAnalyzer)
    (observed_patterns : List BehaviorPattern)
    (known_test_patterns : List (List String)) : List CoverageGap :=
  let surviving := observed_patterns.filter
    (fun p => decide (a.min_support ≤ p.support ∧ p.sequence ∉ known_test_patterns))
  List.insertionSort support_ge (gaps_from 0 surviving)

/-! ## RefactorAnalyzer (spec section 4.3) -/

/-- Modelled from the spec: the missing RefactorAnalyzer class of the
analyzer module; it is stateless. -/
structure RefactorAnalyzer where
  deriving DecidableEq

/-- Modelled from the spec: branching and iteration keywords whose
occurrence counts approximate a cyclomatic score (spec section 4.3). -/
def branch_keywords : List String :=
  ["if", "elif", "for", "while", "except", "and", "or"]

/-- Modelled from the spec: approximate cyclomatic score of a source
snippet, the total count of branching-keyword occurrences. -/
def complexity_score (src : String) : ℕ :=
  (branch_keywords.map (fun k => count_occurs k.data src.data)).sum

/-- Modelled from the spec: fixed complexity threshold of the missing
RefactorAnalyzer, five contributing constructs (spec sections 4.3 and 9). -/
def complexity_threshold : ℕ := 5

/-- Modelled from the spec: confidence of a reduce_complexity suggestion,
increasing monotonically with the raw count and capped at 1.0. -/
def complexity_confidence (score : ℕ) : ℚ :=
  min 1 (1/2 + (score : ℚ)/20)

/-- Modelled from the spec: the reduce_complexity suggestion emitted for
one symbol whose source exceeds the complexity threshold; the location is
the file path and line joined by a colon. -/
def complexity_suggestion_for (sym : CodeSymbol) (src : String) : RefactorSuggestion :=
  { suggestion_id := "ref_complexity_" ++ sym.name,
    suggestion_type := "reduce_complexity",
    location := sym.file_path ++ ":" ++ toString sym.line,
    reason := "Symbol " ++ sym.name ++ " has approximately " ++ toString (complexity_score src) ++ " branching constructs",
    confidence := complexity_confidence (complexity_score src),
    code_before := "",
    code_after := "" }

/-- Modelled from the spec: the complexity heuristic of the missing
RefactorAnalyzer (spec section 4.3). Symbols lacking raw source text are
skipped; above the fixed threshold a reduce_complexity suggestion is
emitted. -/
def analyze_complexity (symbols : List CodeSymbol) : List RefactorSuggestion :=
  symbols.filterMap fun sym =>
    match sym.source_code with
    | none => none
    | some src =>
      if complexity_threshold < complexity_score src then
        some (complexity_suggestion_for sym src)
      else none

/-- Modelled from the spec: normalized name stem used by the duplication
heuristic, the name with any trailing digits removed (spec section 4.3). -/
def name_stem (n : String) : String :=
  ⟨(n.data.reverse.dropWhile Char.isDigit).reverse⟩

/-- Modelled from the spec: the duplication heuristic of the missing
RefactorAnalyzer (spec section 4.3). Three or more symbols in the same file
sharing a normalized name stem trigger one extract_common suggestion for
the group. -/
def analyze_duplication (symbols : List CodeSymbol) : List RefactorSuggestion :=
  let keys := (symbols.map fun s => (s.file_path, name_stem s.name)).dedup
  keys.filterMap fun key =>
    let group := symbols.filter fun s => decide (s.file_path = key.1 ∧ name_stem s.name = key.2)
    if 3 ≤ group.length then
      some { suggestion_id := "ref_dup_" ++ key.2,
             suggestion_type := "extract_common",
             location := key.1 ++ ":" ++ toString ((group.head?.map CodeSymbol.line).getD 0),
             reason := "Found " ++ toString group.length ++ " similar symbols sharing the stem " ++ key.2,
             confidence := 7/10,
             code_before := "",
             code_after := "" }
    else none

/-- Modelled from the spec: reason text flagging a single-character name as
unclear (spec section 4.3). -/
def single_letter_reason (name : String) : String :=
  "Name \"" ++ name ++ "\" is a single-letter identifier; use a more descriptive name"

/-- Modelled from the spec: reason text flagging an unwieldy long name; the
quoted name is truncated to 30 characters followed by an ellipsis and the
literal character count is included (spec section 4.3). -/
def long_name_reason (name : String) : String :=
  "Name \"" ++ string_take name 30 ++ "...\" is too long (" ++ toString name.length ++ " chars)"

/-- Modelled from the spec: the naming heuristic of the missing
RefactorAnalyzer applied to one symbol (spec section 4.3). A
single-character name yields one rename suggestion with moderate
confidence; a name longer than 50 characters yields one rename suggestion
with confidence fixed at 0.6. -/
def naming_suggestions_for (sym : CodeSymbol) : List RefactorSuggestion :=
  (if sym.name.length = 1 then
    [{ suggestion_id := "ref_naming_short_" ++ sym.name,
       suggestion_type := "rename",
       location := sym.file_path ++ ":" ++ toString sym.line,
       reason := single_letter_reason sym.name,
       confidence := 7/10,
       code_before := "",
       code_after := "" }]
  else [])
  ++
  (if 50 < sym.name.length then
    [{ suggestion_id := "ref_naming_long_" ++ string_take sym.name 30,
       suggestion_type := "rename",
       location := sym.file_path ++ ":" ++ toString sym.line,
       reason := long_name_reason sym.name,
       confidence := 6/10,
       code_before := "",
       code_after := "" }]
  else [])

/-- Modelled from the spec: the naming heuristic over a symbol list. -/
def analyze_naming (symbols : List CodeSymbol) : List RefactorSuggestion :=
  symbols.flatMap naming_suggestions_for

/-- Modelled from the spec: the missing analyze_code method of
RefactorAnalyzer (spec section 4.3). The analysis_type selects exactly one
heuristic; an unrecognized type yields an empty list and never raises. -/
def RefactorAnalyzer.analyze_code (_r : RefactorAnalyzer)
    (symbols : List CodeSymbol)
    (_usage_patterns : List BehaviorPattern)
    (analysis_type : String) : List RefactorSuggestion :=
  if analysis_type = "complexity" then analyze_complexity symbols
  else if analysis_type = "duplication" then analyze_duplication symbols
  else if analysis_type = "naming" then analyze_naming symbols
  else []

/-! ## DocsAnalyzer (spec section 4.4) -/

/-- Modelled from the spec: the missing DocsAnalyzer class of the analyzer
module; it is stateless. -/
structure DocsAnalyzer where
  deriving DecidableEq

/-- Modelled from the spec: the doc template generator of the missing
DocsAnalyzer (spec section 4.4). Google-style function templates carry
labeled Args, Returns and Raises sections; class templates carry an
Attributes section; other styles fall back to a minimal placeholder. -/
def doc_template (name symbol_type doc_style : String) : String :=
  if doc_style = "google" then
    if symbol_type = "class" then
      name ++ " class.\n\nAttributes:\n    TODO: describe the attributes.\n"
    else
      name ++ " function.\n\nArgs:\n    TODO: describe the arguments.\n\nReturns:\n    TODO: describe the return value.\n\nRaises:\n    TODO: describe the exceptions.\n"
  else
    "Document " ++ name

/-- Modelled from the spec: the completeness check of the missing
DocsAnalyzer (spec section 4.4). It reports an issue when the descriptive
text is very short, and for function-like symbols when no returns-style
keyword is detectable. An empty result means the docstring is adequate. -/
def check_doc_completeness (doc symbol_type : String) : String :=
  (if doc.length < 20 then "Add a more detailed description. " else "")
  ++
  (if symbol_type = "function" ∧ contains_sub (string_lower doc) "return" = false then
    "Missing Returns section." else "")

/-- Modelled from the spec: the per-symbol decision of the missing
analyze_docs method (spec section 4.4). Symbols whose name starts with an
underscore are skipped unless the name is exactly the constructor
convention name; an empty or absent docstring yields a missing suggestion
built from the doc template; a non-empty docstring failing the completeness
check yields an incomplete suggestion. -/
def doc_suggestion_for (sym : CodeSymbol) (doc_style : String) : Option DocSuggestion :=
  if sym.name.data.head? = some '_' ∧ sym.name ≠ "__init__" then none
  else
    if sym.docstring.getD "" = "" then
      some { suggestion_id := "doc_missing_" ++ sym.name,
             symbol_name := sym.name,
             symbol_type := sym.symbol_type,
             location := sym.file_path ++ ":" ++ toString sym.line,
             doc_type := "missing",
             suggested_doc := doc_template sym.name sym.symbol_type doc_style,
             confidence := 9/10 }
    else
      if check_doc_completeness (sym.docstring.getD "") sym.symbol_type = "" then none
      else
        some { suggestion_id := "doc_incomplete_" ++ sym.name,
               symbol_name := sym.name,
               symbol_type := sym.symbol_type,
               location := sym.file_path ++ ":" ++ toString sym.line,
               doc_type := "incomplete",
               suggested_doc := check_doc_completeness (sym.docstring.getD "") sym.symbol_type,
               confidence := 7/10 }

/-- Modelled from the spec: the missing analyze_docs method of DocsAnalyzer
(spec section 4.4), the per-symbol decision applied independently to every
symbol. -/
def DocsAnalyzer.analyze_docs (_d : DocsAnalyzer)
    (symbols : List CodeSymbol) (doc_style : String) : List DocSuggestion :=
  symbols.filterMap fun sym => doc_suggestion_for sym doc_style

/-! ## SecurityAnalyzer (spec section 4.5) -/

/-- Modelled from the spec: the missing SecurityAnalyzer class of the
analyzer module; it is stateless apart from its static pattern catalog. -/
structure SecurityAnalyzer where
  deriving DecidableEq

/-- Modelled from the spec: one entry of the static security catalog, a
textual pattern with its category, base severity, description,
recommendation and optional CWE id (spec sections 2 and 4.5). -/
structure SecurityRule where
  pattern_text : String
  category : String
  severity : String
  description : String
  recommendation : String
  cwe_id : Option String

/-- Modelled from the spec: the static security pattern catalog of the
missing analyzer module (spec section 4.5), covering SQL injection via
string interpolation into execute-like calls, command injection via shell
invocation and dynamic code evaluation, hardcoded secrets, insecure
cryptography and insecure deserialization. Parameterized queries and
static argument lists do not match any entry. -/
def security_catalog : List SecurityRule :=
  [⟨"execute(f\"", "sql_injection", "critical",
    "String interpolation inside an execute call",
    "Use parameterized queries", some "CWE-89"⟩,
   ⟨"executemany(f\"", "sql_injection", "critical",
    "String interpolation inside an executemany call",
    "Use parameterized queries", some "CWE-89"⟩,
   ⟨"os.system(", "command_injection", "critical",
    "Shell invocation through os.system",
    "Use subprocess with a static argument list", some "CWE-78"⟩,
   ⟨"os.popen(", "command_injection", "critical",
    "Shell invocation through os.popen",
    "Use subprocess with a static argument list", some "CWE-78"⟩,
   ⟨"shell=True", "command_injection", "high",
    "Subprocess invoked through a shell",
    "Avoid shell=True; pass a static argument list", some "CWE-78"⟩,
   ⟨"eval(", "command_injection", "high",
    "Dynamic code evaluation",
    "Avoid eval on untrusted input", some "CWE-95"⟩,
   ⟨"exec(", "command_injection", "high",
    "Dynamic code execution",
    "Avoid exec on untrusted input", some "CWE-95"⟩,
   ⟨"password = \"", "hardcoded_secrets", "high",
    "Literal assigned to a credential-like variable",
    "Load credentials from the environment", some "CWE-798"⟩,
   ⟨"passwd = \"", "hardcoded_secrets", "high",
    "Literal assigned to a credential-like variable",
    "Load credentials from the environment", some "CWE-798"⟩,
   ⟨"api_key = \"", "hardcoded_secrets", "high",
    "Literal assigned to a credential-like variable",
    "Load credentials from the environment", some "CWE-798"⟩,
   ⟨"secret = \"", "hardcoded_secrets", "high",
    "Literal assigned to a credential-like variable",
    "Load credentials from the environment", some "CWE-798"⟩,
   ⟨"token = \"", "hardcoded_secrets", "high",
    "Literal assigned to a credential-like variable",
    "Load credentials from the environment", some "CWE-798"⟩,
   ⟨"md5(", "insecure_crypto", "medium",
    "Weak hash function md5",
    "Use a modern hash such as sha256", some "CWE-327"⟩,
   ⟨"sha1(", "insecure_crypto", "medium",
    "Weak hash function sha1",
    "Use a modern hash such as sha256", some "CWE-327"⟩,
   ⟨"pickle.load", "insecure_deserialization", "high",
    "Unpickling of possibly untrusted data",
    "Avoid pickle for untrusted input", some "CWE-502"⟩,
   ⟨"marshal.load", "insecure_deserialization", "high",
    "Unmarshalling of possibly untrusted data",
    "Avoid marshal for untrusted input", some "CWE-502"⟩,
   ⟨"yaml.load(", "insecure_deserialization", "high",
    "Unsafe YAML loading",
    "Use yaml.safe_load", some "CWE-502"⟩]

/-- Modelled from the spec: severity rank ordering low, medium, high,
critical used for filtering and sorting of security issues (spec section
4.5 and glossary). -/
def severity_rank : String → ℕ
  | "critical" => 3
  | "high" => 2
  | "medium" => 1
  | _ => 0

/-- Modelled from the spec: the security issue built when one catalog entry
matches the source of one symbol. -/
def issue_for (sym : CodeSymbol) (rule : SecurityRule) : SecurityIssue :=
  { issue_id := "sec_" ++ sym.name ++ "_" ++ rule.category,
    severity := rule.severity,
    category := rule.category,
    location := sym.file_path ++ ":" ++ toString sym.line,
    description := rule.description,
    recommendation := rule.recommendation,
    confidence := 8/10,
    cwe_id := rule.cwe_id }

/-- Modelled from the spec: scan of one symbol against the whole catalog
(spec section 4.5). Symbols with empty or absent source text contribute no
issues; each matching catalog entry yields one issue. -/
def issues_for_symbol (sym : CodeSymbol) : List SecurityIssue :=
  match sym.source_code with
  | none => []
  | some src =>
    if src = "" then []
    else security_catalog.filterMap fun rule =>
      if contains_sub src rule.pattern_text then some (issue_for sym rule) else none

/-- Ordering used to sort security issues by severity rank descending. -/
def sev_ge (i1 i2 : SecurityIssue) : Prop :=
  severity_rank i2.severity ≤ severity_rank i1.severity

instance : DecidableRel sev_ge :=
  fun i1 i2 => inferInstanceAs (Decidable (severity_rank i2.severity ≤ severity_rank i1.severity))

/-- Modelled from the spec: the missing analyze_security method of
SecurityAnalyzer (spec section 4.5). Scan every symbol with source text
against the catalog, keep only issues at or above the threshold severity
rank and sort the result by severity descending with a stable insertion
sort. -/
def SecurityAnalyzer.analyze_security (_a : SecurityAnalyzer)
    (symbols : List CodeSymbol) (severity_threshold : String) : List SecurityIssue :=
  let issues := symbols.flatMap issues_for_symbol
  let kept := issues.filter
    (fun i => decide (severity_rank severity_threshold ≤ severity_rank i.severity))
  List.insertionSort sev_ge kept

/-! ## TestSynthesizer (spec section 4.7) -/

/-- Modelled from the spec: the missing CodeTestGenerator class of the
generator module; it is stateless apart from its static template table. -/
structure CodeTestGenerator where
  deriving DecidableEq

/-- Modelled from the spec: the exported name TestGenerator is a binding of
the same class as CodeTestGenerator (spec section 9, design note on class
aliases). -/
abbrev TestGenerator := CodeTestGenerator

/-- Modelled from the spec: the reduced smart test-file generator class of
the missing generator module (spec section 4.7, reduced file-level skeleton
generator); its per-file synthesis is out of scope here, only its exported
identity matters. -/
structure SmartPytestFileGenerator where
  deriving DecidableEq

/-- Modelled from the spec: the exported name SmartTestFileGenerator is a
binding of the same class as SmartPytestFileGenerator (spec section 9,
design note on class aliases). -/
abbrev SmartTestFileGenerator := SmartPytestFileGenerator

/-- Modelled from the spec: whether the template table of the missing
CodeTestGenerator holds an exact template for the framework and style pair;
the table covers at minimum pytest unit, pytest integration and jest unit
(spec section 4.7). -/
def has_template (framework style : String) : Bool :=
  (framework == "pytest" && (style == "unit" || style == "integration"))
  || (framework == "jest" && style == "unit")

/-- Ordered steps of a pattern rendered as one line of text. -/
def steps_comment (pattern : List String) : String :=
  String.intercalate " -> " pattern

/-- Modelled from the spec: the pytest unit template of the missing
CodeTestGenerator (spec section 4.7), an Arrange/Act/Assert skeleton using
the suggested name and the pattern steps. -/
def pytest_unit_template (gap : CoverageGap) : String :=
  "def " ++ gap.suggested_test_name ++ "():\n    \"\"\"" ++ gap.description
  ++ "\n\n    Covers flow: " ++ steps_comment gap.pattern
  ++ "\n    \"\"\"\n    # Arrange\n    # TODO: set up the flow state\n    # Act\n    # TODO: drive the steps: "
  ++ steps_comment gap.pattern
  ++ "\n    # Assert\n    assert True\n"

/-- Modelled from the spec: the pytest integration template of the missing
CodeTestGenerator (spec section 4.7). -/
def pytest_integration_template (gap : CoverageGap) : String :=
  "import pytest\n\n\n@pytest.mark.integration\ndef " ++ gap.suggested_test_name
  ++ "():\n    \"\"\"" ++ gap.description
  ++ "\n\n    Covers flow: " ++ steps_comment gap.pattern
  ++ "\n    \"\"\"\n    # Arrange\n    # TODO: bring up the integrated environment\n    # Act\n    # TODO: drive the steps: "
  ++ steps_comment gap.pattern
  ++ "\n    # Assert\n    assert True\n"

/-- Modelled from the spec: the jest unit template of the missing
CodeTestGenerator (spec section 4.7). -/
def jest_unit_template (gap : CoverageGap) : String :=
  "test(\"" ++ gap.suggested_test_name ++ "\", () => \x7b\n  // "
  ++ gap.description ++ "\n  // TODO: cover flow: " ++ steps_comment gap.pattern
  ++ "\n  expect(true).toBe(true);\n\x7d);\n"

/-- Modelled from the spec: the minimal fallback skeleton rendered for an
unmapped framework and style pair, a placeholder test function containing a
TODO marker (spec section 4.7). -/
def fallback_template (gap : CoverageGap) : String :=
  "def " ++ gap.suggested_test_name
  ++ "():\n    # TODO: implement a test covering: " ++ steps_comment gap.pattern
  ++ "\n    assert True\n"

/-- Modelled from the spec: the missing generate_test method of
CodeTestGenerator (spec section 4.7). Render the template keyed by the
framework and style pair, or the fallback skeleton when no exact template
matches; the result always echoes the framework, style, covered pattern,
test name and test file of the inputs. -/
def CodeTestGenerator.generate_test (_g : CodeTestGenerator)
    (gap : CoverageGap) (framework style : String) : SuggestedUnitCase :=
  let code :=
    if framework = "pytest" ∧ style = "unit" then pytest_unit_template gap
    else if framework = "pytest" ∧ style = "integration" then pytest_integration_template gap
    else if framework = "jest" ∧ style = "unit" then jest_unit_template gap
    else fallback_template gap
  { test_name := gap.suggested_test_name,
    test_file := gap.suggested_test_file,
    test_code := code,
    covers_pattern := gap.pattern,
    framework := framework,
    style := style }

/-! ## Helper lemmas -/

theorem mem_gaps_from {g : CoverageGap} :
    ∀ {idx : ℕ} {l : List BehaviorPattern}, g ∈ gaps_from idx l →
      ∃ j p, p ∈ l ∧ g = gap_for j p := by
  intro idx l
  induction l generalizing idx with
  | nil => intro h; simp [gaps_from] at h
  | cons p ps ih =>
    intro h
    rcases List.mem_cons.mp h with h1 | h2
    · exact ⟨idx, p, List.mem_cons_self p ps, h1⟩
    · obtain ⟨j, q, hq, hg⟩ := ih h2
      exact ⟨j, q, List.mem_cons_of_mem p hq, hg⟩

theorem gaps_from_mem {p : BehaviorPattern} :
    ∀ {l : List BehaviorPattern}, p ∈ l → ∀ idx : ℕ, ∃ j, gap_for j p ∈ gaps_from idx l := by
  intro l
  induction l with
  | nil => intro h; cases h
  | cons q qs ih =>
    intro hl idx
    rcases List.mem_cons.mp hl with h1 | h2
    · subst h1
      exact ⟨idx, List.mem_cons_self _ _⟩
    · obtain ⟨j, hj⟩ := ih h2 (idx + 1)
      exact ⟨j, List.mem_cons_of_mem _ hj⟩

theorem priority_for_support_eq (s : ℚ) :
    (priority_for_support s = "critical" ↔ 3/10 ≤ s)
    ∧ (priority_for_support s = "high" ↔ 2/10 ≤ s ∧ s < 3/10)
    ∧ (priority_for_support s = "medium" ↔ 1/10 ≤ s ∧ s < 2/10)
    ∧ (priority_for_support s = "low" ↔ s < 1/10) := by
  unfold priority_for_support
  split_ifs with h1 h2 h3
  · refine ⟨iff_of_true rfl h1, ?_, ?_, ?_⟩
    · exact iff_of_false (by decide) (fun h => by linarith [h.2])
    · exact iff_of_false (by decide) (fun h => by linarith [h.2])
    · exact iff_of_false (by decide) (fun h => by linarith)
  · refine ⟨iff_of_false (by decide) h1, iff_of_true rfl ⟨h2, not_le.mp h1⟩, ?_, ?_⟩
    · exact iff_of_false (by decide) (fun h => by linarith [h.2])
    · exact iff_of_false (by decide) (fun h => by linarith)
  · refine ⟨iff_of_false (by decide) h1, ?_, iff_of_true rfl ⟨h3, not_le.mp h2⟩, ?_⟩
    · exact iff_of_false (by decide) (fun h => absurd h.1 h2)
    · exact iff_of_false (by decide) (fun h => by linarith)
  · refine ⟨iff_of_false (by decide) h1, ?_, ?_, iff_of_true rfl (not_le.mp h3)⟩
    · exact iff_of_false (by decide) (fun h => absurd h.1 h2)
    · exact iff_of_false (by decide) (fun h => absurd h.1 h3)

theorem sub_pad {x mid : List Char} (pre post : List Char) (h : x <:+: mid) :
    x <:+: pre ++ mid ++ post := by
  obtain ⟨s, t, rfl⟩ := h
  exact ⟨pre ++ s, t ++ post, by simp⟩

/-! ## Claim theorems -/

/-- C1: every gap surviving the filters of CoverageAnalyzer.analyze_gaps
carries the fixed priority staircase on support: critical iff the support
is at least 0.30, high iff it lies in [0.20, 0.30), medium iff it lies in
[0.10, 0.20), and low iff it lies in [min_support, 0.10), each band
inclusive on its lower bound. -/
theorem coverage_priority_staircase (a : CoverageAnalyzer)
    (obs : List BehaviorPattern) (known : List (List String)) (g : CoverageGap)
    (hg : g ∈ a.analyze_gaps obs known) :
    (g.priority = "critical" ↔ 3/10 ≤ g.support)
    ∧ (g.priority = "high" ↔ 2/10 ≤ g.support ∧ g.support < 3/10)
    ∧ (g.priority = "medium" ↔ 1/10 ≤ g.support ∧ g.support < 2/10)
    ∧ (g.priority = "low" ↔ a.min_support ≤ g.support ∧ g.support < 1/10) := by
  simp only [CoverageAnalyzer.analyze_gaps] at hg
  rw [List.mem_insertionSort] at hg
  obtain ⟨j, p, hp, rfl⟩ := mem_gaps_from hg
  have hms : a.min_support ≤ p.support :=
    (of_decide_eq_true (List.mem_filter.mp hp).2).1
  have hpr := priority_for_support_eq p.support
  have hsupp : (gap_for j p).support = p.support := rfl
  have hprio : (gap_for j p).priority = priority_for_support p.support := rfl
  rw [hsupp, hprio]
  exact ⟨hpr.1, hpr.2.1, hpr.2.2.1,
    ⟨fun h => ⟨hms, (hpr.2.2.2).mp h⟩, fun h => (hpr.2.2.2).mpr h.2⟩⟩

/-- Witness for C1 at a concrete call: a pattern of support 0.35 surviving
with minimum support 0.05 is assigned priority critical. -/
theorem coverage_priority_staircase_w :
    ∃ g ∈ CoverageAnalyzer.analyze_gaps ⟨5/100⟩ [⟨["checkout"], 35/100, 100⟩] [],
      (g.priority = "critical" ↔ 3/10 ≤ g.support) := by
  have hmem : gap_for 0 ⟨["checkout"], 35/100, 100⟩ ∈
      CoverageAnalyzer.analyze_gaps ⟨5/100⟩ [⟨["checkout"], 35/100, 100⟩] [] := by
    norm_num [CoverageAnalyzer.analyze_gaps, List.filter, gaps_from,
      List.insertionSort, List.orderedInsert]
  exact ⟨_, hmem, (coverage_priority_staircase _ _ _ _ hmem).1⟩

/-- C2: CoverageAnalyzer.analyze_gaps returns a gap for an observed pattern
exactly when the support is at least the configured minimum support and
the sequence is not among the known test patterns; an empty observed list,
or an input where every pattern is filtered out, yields the empty list. -/
theorem analyze_gaps_filter_semantics (a : CoverageAnalyzer)
    (obs : List BehaviorPattern) (known : List (List String)) :
    (∀ p ∈ obs,
      ((∃ g ∈ a.analyze_gaps obs known, g.pattern = p.sequence ∧ g.support = p.support)
        ↔ (a.min_support ≤ p.support ∧ p.sequence ∉ known)))
    ∧ a.analyze_gaps [] known = []
    ∧ ((∀ p ∈ obs, ¬(a.min_support ≤ p.support ∧ p.sequence ∉ known)) →
        a.analyze_gaps obs known = []) := by
  refine ⟨?_, rfl, ?_⟩
  · intro p hp
    constructor
    · rintro ⟨g, hg, hpat, hsup⟩
      simp only [CoverageAnalyzer.analyze_gaps] at hg
      rw [List.mem_insertionSort] at hg
      obtain ⟨j, q, hq, rfl⟩ := mem_gaps_from hg
      have hcond := of_decide_eq_true (List.mem_filter.mp hq).2
      have hpat2 : q.sequence = p.sequence := hpat
      have hsup2 : q.support = p.support := hsup
      refine ⟨?_, ?_⟩
      · rw [← hsup2]; exact hcond.1
      · rw [← hpat2]; exact hcond.2
    · rintro ⟨h1, h2⟩
      have hpf : p ∈ obs.filter
          (fun p => decide (a.min_support ≤ p.support ∧ p.sequence ∉ known)) :=
        List.mem_filter.mpr ⟨hp, decide_eq_true ⟨h1, h2⟩⟩
      obtain ⟨j, hj⟩ := gaps_from_mem hpf 0
      refine ⟨gap_for j p, ?_, rfl, rfl⟩
      simp only [CoverageAnalyzer.analyze_gaps]
      rw [List.mem_insertionSort]
      exact hj
  · intro hall
    simp only [CoverageAnalyzer.analyze_gaps]
    have hnil : obs.filter
        (fun p => decide (a.min_support ≤ p.support ∧ p.sequence ∉ known)) = [] := by
      rw [List.filter_eq_nil_iff]
      intro p hp
      simpa using hall p hp
    rw [hnil]
    rfl

/-- Witness for C2 at a concrete call: with minimum support 0.10, a single
observed pattern of support 0.05 is filtered out and the result is empty. -/
theorem analyze_gaps_filter_semantics_w :
    CoverageAnalyzer.analyze_gaps ⟨1/10⟩ [⟨["low_support"], 5/100, 10⟩] [] = [] := by
  refine (analyze_gaps_filter_semantics ⟨1/10⟩ [⟨["low_support"], 5/100, 10⟩] []).2.2 ?_
  intro p hp
  rw [List.mem_singleton] at hp
  subst hp
  intro hcl
  exact absurd hcl.1 (by norm_num)

theorem sub_pad_left {x mid : List Char} (pre : List Char) (h : x <:+: mid) :
    x <:+: pre ++ mid := by
  obtain ⟨s, t, rfl⟩ := h
  exact ⟨pre ++ s, t, by simp⟩

theorem sub_refl_chars (x : List Char) : x <:+: x :=
  ⟨[], [], by simp⟩

theorem analyze_code_naming_eq (ra : RefactorAnalyzer)
    (symbols : List CodeSymbol) (ps : List BehaviorPattern) :
    ra.analyze_code symbols ps "naming" = analyze_naming symbols := rfl

/-- C3: under analysis_type naming, a symbol whose name is longer than 50
characters yields a rename suggestion whose reason is the long-name message
(the quoted name truncated to 30 characters plus an ellipsis), contains
"too long" and the literal character count followed by " chars", with
confidence exactly 0.6; a name of exactly 50 characters yields no long-name
suggestion; a single-character name yields a rename suggestion mentioning
single-letter naming. -/
theorem refactor_naming_rules (sym : CodeSymbol) :
    (50 < sym.name.length →
      ∃ s ∈ RefactorAnalyzer.analyze_code ⟨⟩ [sym] [] "naming",
        s.suggestion_type = "rename"
        ∧ s.reason = long_name_reason sym.name
        ∧ "too long".data <:+: s.reason.data
        ∧ (toString sym.name.length ++ " chars").data <:+: s.reason.data
        ∧ s.confidence = 6/10)
    ∧ (sym.name.length = 50 →
      ∀ s ∈ RefactorAnalyzer.analyze_code ⟨⟩ [sym] [] "naming",
        ¬ "too long".data <:+: s.reason.data)
    ∧ (sym.name.length = 1 →
      ∃ s ∈ RefactorAnalyzer.analyze_code ⟨⟩ [sym] [] "naming",
        s.suggestion_type = "rename" ∧ "single-letter".data <:+: s.reason.data) := by
  refine ⟨?_, ?_, ?_⟩
  · intro h50
    have h1 : ¬ sym.name.length = 1 := by omega
    have hres : RefactorAnalyzer.analyze_code ⟨⟩ [sym] [] "naming"
        = [{ suggestion_id := "ref_naming_long_" ++ string_take sym.name 30,
             suggestion_type := "rename",
             location := sym.file_path ++ ":" ++ toString sym.line,
             reason := long_name_reason sym.name,
             confidence := 6/10,
             code_before := "",
             code_after := "" }] := by
      rw [analyze_code_naming_eq]
      simp [analyze_naming, naming_suggestions_for, h1, h50]
    have hd : (long_name_reason sym.name).data
        = ("Name \"".data ++ (string_take sym.name 30).data)
          ++ "...\" is too long (".data
          ++ ((toString sym.name.length).data ++ " chars)".data) := by
      simp [long_name_reason, String.data_append, List.append_assoc]
    have hsplit : (" chars)" : String).data = " chars".data ++ [')'] := by decide
    have hd2 : (long_name_reason sym.name).data
        = (("Name \"".data ++ (string_take sym.name 30).data)
            ++ "...\" is too long (".data)
          ++ ((toString sym.name.length).data ++ " chars".data) ++ [')'] := by
      rw [hd, hsplit]
      simp [List.append_assoc]
    refine ⟨_, by rw [hres]; exact List.mem_singleton.mpr rfl, rfl, rfl, ?_, ?_, rfl⟩
    · show "too long".data <:+: (long_name_reason sym.name).data
      rw [hd]
      exact sub_pad _ _ (by decide)
    · show (toString sym.name.length ++ " chars").data <:+: (long_name_reason sym.name).data
      rw [String.data_append, hd2]
      exact sub_pad _ _ (sub_refl_chars _)
  · intro h50 s hs
    have ha : ¬ sym.name.length = 1 := by omega
    have hb : ¬ 50 < sym.name.length := by omega
    rw [analyze_code_naming_eq] at hs
    simp [analyze_naming, naming_suggestions_for, ha, hb] at hs
  · intro h1len
    have hb : ¬ 50 < sym.name.length := by omega
    have hres : RefactorAnalyzer.analyze_code ⟨⟩ [sym] [] "naming"
        = [{ suggestion_id := "ref_naming_short_" ++ sym.name,
             suggestion_type := "rename",
             location := sym.file_path ++ ":" ++ toString sym.line,
             reason := single_letter_reason sym.name,
             confidence := 7/10,
             code_before := "",
             code_after := "" }] := by
      rw [analyze_code_naming_eq]
      simp [analyze_naming, naming_suggestions_for, h1len, hb]
    refine ⟨_, by rw [hres]; exact List.mem_singleton.mpr rfl, rfl, ?_⟩
    show "single-letter".data <:+: (single_letter_reason sym.name).data
    have hd3 : (single_letter_reason sym.name).data
        = ("Name \"".data ++ sym.name.data)
          ++ "\" is a single-letter identifier; use a more descriptive name".data := by
      simp [single_letter_reason, String.data_append, List.append_assoc]
    rw [hd3]
    exact sub_pad_left _ (by decide)

/-- Witness for C3 at concrete symbols: a 60-character name receives the
long-name rename suggestion with confidence 0.6 and a one-character name
receives the single-letter rename suggestion. -/
theorem refactor_naming_rules_w :
    (∃ s ∈ RefactorAnalyzer.analyze_code ⟨⟩
        [⟨⟨List.replicate 60 'a'⟩, "function", "src/handlers.py", 42, none, none⟩] [] "naming",
      s.suggestion_type = "rename"
      ∧ s.reason = long_name_reason ⟨List.replicate 60 'a'⟩
      ∧ "too long".data <:+: s.reason.data
      ∧ (toString (String.length ⟨List.replicate 60 'a'⟩) ++ " chars").data <:+: s.reason.data
      ∧ s.confidence = 6/10)
    ∧ (∃ s ∈ RefactorAnalyzer.analyze_code ⟨⟩
        [⟨"x", "variable", "a.py", 1, none, none⟩] [] "naming",
      s.suggestion_type = "rename" ∧ "single-letter".data <:+: s.reason.data) := by
  have hlen : (50 : ℕ) < String.length ⟨List.replicate 60 'a'⟩ := by simp [String.length]
  exact ⟨(refactor_naming_rules _).1 hlen, (refactor_naming_rules _).2.2 (by decide)⟩

/-- C4: DocsAnalyzer.analyze_docs skips every symbol whose name starts with
an underscore except the symbol named exactly "__init__": a skipped leading
symbol contributes nothing, a symbol named "_private_helper" with an empty
docstring yields no suggestion, and a symbol named "__init__" with an empty
docstring yields exactly one suggestion with doc_type "missing". -/
theorem docs_private_skip_rule (style : String) :
    (∀ (sym : CodeSymbol) (rest : List CodeSymbol),
      sym.name.data.head? = some '_' → sym.name ≠ "__init__" →
        DocsAnalyzer.analyze_docs ⟨⟩ (sym :: rest) style = DocsAnalyzer.analyze_docs ⟨⟩ rest style)
    ∧ (∀ sym : CodeSymbol, sym.name = "_private_helper" →
        DocsAnalyzer.analyze_docs ⟨⟩ [sym] style = [])
    ∧ (∀ sym : CodeSymbol, sym.name = "__init__" → sym.docstring.getD "" = "" →
        ∃ d, DocsAnalyzer.analyze_docs ⟨⟩ [sym] style = [d] ∧ d.doc_type = "missing") := by
  refine ⟨?_, ?_, ?_⟩
  · intro sym rest h1 h2
    have hf : doc_suggestion_for sym style = none := by
      rw [doc_suggestion_for, if_pos ⟨h1, h2⟩]
    simp only [DocsAnalyzer.analyze_docs, List.filterMap_cons, hf]
  · intro sym h
    have h1 : sym.name.data.head? = some '_' := by rw [h]; rfl
    have h2 : sym.name ≠ "__init__" := by rw [h]; decide
    have hf : doc_suggestion_for sym style = none := by
      rw [doc_suggestion_for, if_pos ⟨h1, h2⟩]
    simp only [DocsAnalyzer.analyze_docs, List.filterMap_cons, hf, List.filterMap_nil]
  · intro sym h hdoc
    have hskip : ¬(sym.name.data.head? = some '_' ∧ sym.name ≠ "__init__") := by
      intro hc
      exact hc.2 h
    have hf : doc_suggestion_for sym style
        = some { suggestion_id := "doc_missing_" ++ sym.name,
                 symbol_name := sym.name,
                 symbol_type := sym.symbol_type,
                 location := sym.file_path ++ ":" ++ toString sym.line,
                 doc_type := "missing",
                 suggested_doc := doc_template sym.name sym.symbol_type style,
                 confidence := 9/10 } := by
      rw [doc_suggestion_for, if_neg hskip, if_pos hdoc]
    refine ⟨{ suggestion_id := "doc_missing_" ++ sym.name,
              symbol_name := sym.name,
              symbol_type := sym.symbol_type,
              location := sym.file_path ++ ":" ++ toString sym.line,
              doc_type := "missing",
              suggested_doc := doc_template sym.name sym.symbol_type style,
              confidence := 9/10 }, ?_, rfl⟩
    simp only [DocsAnalyzer.analyze_docs, List.filterMap_cons, hf, List.filterMap_nil]

/-- Witness for C4 at concrete symbols: a private helper with empty
docstring yields nothing and a constructor symbol with empty docstring
yields exactly one missing-doc suggestion. -/
theorem docs_private_skip_rule_w :
    DocsAnalyzer.analyze_docs ⟨⟩
      [⟨"_private_helper", "function", "test.py", 10, some "", none⟩] "google" = []
    ∧ ∃ d, DocsAnalyzer.analyze_docs ⟨⟩
        [⟨"__init__", "function", "test.py", 10, some "", none⟩] "google" = [d]
      ∧ d.doc_type = "missing" :=
  ⟨(docs_private_skip_rule "google").2.1 _ rfl,
   (docs_private_skip_rule "google").2.2 _ rfl rfl⟩

/-- C5: SecurityAnalyzer.analyze_security flags the f-string SQL execute
call with at least one critical sql_injection issue, while the static
subprocess argument list and the parameterized query yield zero issues. -/
theorem security_patterns_concrete :
    (∃ i ∈ SecurityAnalyzer.analyze_security ⟨⟩
        [⟨"query", "function", "db.py", 10, none,
          some "cursor.execute(f\"SELECT * FROM users WHERE id = {user_id}\")"⟩] "low",
      i.category = "sql_injection" ∧ i.severity = "critical")
    ∧ SecurityAnalyzer.analyze_security ⟨⟩
        [⟨"safe_command", "function", "utils.py", 5, none,
          some "subprocess.run([\"ls\", \"-la\"], check=True)"⟩] "low" = []
    ∧ SecurityAnalyzer.analyze_security ⟨⟩
        [⟨"safe_query", "function", "db.py", 20, none,
          some "cursor.execute(\"SELECT * FROM users WHERE id = %s\", (user_id,))"⟩] "low" = [] := by
  refine ⟨?_, ?_, ?_⟩ <;> decide

/-- C6: the list returned by SecurityAnalyzer.analyze_security contains
only issues whose severity rank is at or above the rank of the
severity_threshold argument, and the list is sorted by severity rank
descending. -/
theorem security_threshold_and_sorted (symbols : List CodeSymbol) (thr : String) :
    (∀ i ∈ SecurityAnalyzer.analyze_security ⟨⟩ symbols thr,
      severity_rank thr ≤ severity_rank i.severity)
    ∧ List.Sorted sev_ge (SecurityAnalyzer.analyze_security ⟨⟩ symbols thr) := by
  constructor
  · intro i hi
    simp only [SecurityAnalyzer.analyze_security] at hi
    rw [List.mem_insertionSort] at hi
    exact of_decide_eq_true (List.mem_filter.mp hi).2
  · simp only [SecurityAnalyzer.analyze_security]
    haveI : IsTotal SecurityIssue sev_ge := ⟨fun a b => Nat.le_total _ _⟩
    haveI : IsTrans SecurityIssue sev_ge := ⟨fun a b c hab hbc => Nat.le_trans hbc hab⟩
    exact List.sorted_insertionSort sev_ge _

/-- Witness for C6 at a concrete call: the single command-injection issue
produced for an os.system call is at or above the low threshold and the
returned list is sorted. -/
theorem security_threshold_and_sorted_w :
    severity_rank "low" ≤ severity_rank
      (SecurityIssue.severity
        ⟨"sec_run_cmd_command_injection", "critical", "command_injection", "utils.py:5",
         "Shell invocation through os.system",
         "Use subprocess with a static argument list", 8/10, some "CWE-78"⟩)
    ∧ List.Sorted sev_ge (SecurityAnalyzer.analyze_security ⟨⟩
        [⟨"run_cmd", "function", "utils.py", 5, none, some "os.system(user_input)"⟩] "low") := by
  have hmem : (⟨"sec_run_cmd_command_injection", "critical", "command_injection", "utils.py:5",
        "Shell invocation through os.system",
        "Use subprocess with a static argument list", 8/10, some "CWE-78"⟩ : SecurityIssue)
      ∈ SecurityAnalyzer.analyze_security ⟨⟩
        [⟨"run_cmd", "function", "utils.py", 5, none, some "os.system(user_input)"⟩] "low" := by
    have hev : SecurityAnalyzer.analyze_security ⟨⟩
        [⟨"run_cmd", "function", "utils.py", 5, none, some "os.system(user_input)"⟩] "low"
        = [⟨"sec_run_cmd_command_injection", "critical", "command_injection", "utils.py:5",
            "Shell invocation through os.system",
            "Use subprocess with a static argument list", 8/10, some "CWE-78"⟩] := rfl
    rw [hev]
    exact List.mem_singleton.mpr rfl
  exact ⟨(security_threshold_and_sorted _ _).1 _ hmem, (security_threshold_and_sorted _ _).2⟩

/-- C7: no analyzer raises on an unknown enum-like selector:
RefactorAnalyzer.analyze_code with an unrecognized analysis_type returns
the empty list, and CodeTestGenerator.generate_test always echoes the
framework, style, covered pattern, test name and test file of its inputs
and, for a framework and style pair with no exact template, renders the
non-empty fallback skeleton. -/
theorem unknown_selectors_fallback (ra : RefactorAnalyzer) (tg : CodeTestGenerator)
    (symbols : List CodeSymbol) (ps : List BehaviorPattern) (analysis_type : String)
    (gap : CoverageGap) (framework style : String) :
    (analysis_type ≠ "complexity" → analysis_type ≠ "duplication" → analysis_type ≠ "naming" →
      ra.analyze_code symbols ps analysis_type = [])
    ∧ (tg.generate_test gap framework style).framework = framework
    ∧ (tg.generate_test gap framework style).style = style
    ∧ (tg.generate_test gap framework style).covers_pattern = gap.pattern
    ∧ (tg.generate_test gap framework style).test_name = gap.suggested_test_name
    ∧ (tg.generate_test gap framework style).test_file = gap.suggested_test_file
    ∧ (has_template framework style = false →
        (tg.generate_test gap framework style).test_code = fallback_template gap
        ∧ 0 < (tg.generate_test gap framework style).test_code.length) := by
  refine ⟨?_, rfl, rfl, rfl, rfl, rfl, ?_⟩
  · intro h1 h2 h3
    simp only [RefactorAnalyzer.analyze_code]
    rw [if_neg h1, if_neg h2, if_neg h3]
  · intro hft
    have hcode : (tg.generate_test gap framework style).test_code = fallback_template gap := by
      by_cases hpu : framework = "pytest" ∧ style = "unit"
      · obtain ⟨hf, hs⟩ := hpu
        subst hf; subst hs
        exact absurd hft (by decide)
      · by_cases hpi : framework = "pytest" ∧ style = "integration"
        · obtain ⟨hf, hs⟩ := hpi
          subst hf; subst hs
          exact absurd hft (by decide)
        · by_cases hj : framework = "jest" ∧ style = "unit"
          · obtain ⟨hf, hs⟩ := hj
            subst hf; subst hs
            exact absurd hft (by decide)
          · simp only [CodeTestGenerator.generate_test]
            rw [if_neg hpu, if_neg hpi, if_neg hj]
    refine ⟨hcode, ?_⟩
    rw [hcode]
    have h4 : (0:ℕ) < "def ".length := by decide
    simp only [fallback_template, String.length_append]
    omega

/-- Witness for C7 at concrete inputs: analysis_type "all" is unrecognized
and yields the empty list, and an unknown framework renders the non-empty
fallback skeleton. -/
theorem unknown_selectors_fallback_w :
    RefactorAnalyzer.analyze_code ⟨⟩ [] [] "all" = []
    ∧ (CodeTestGenerator.generate_test ⟨⟩
        ⟨"gap_w", ["login"], 1/10, "medium", "test_login_flow", "tests/test_login.py", "flow"⟩
        "unknown_framework" "unit").test_code
      = fallback_template
        ⟨"gap_w", ["login"], 1/10, "medium", "test_login_flow", "tests/test_login.py", "flow"⟩
    ∧ 0 < (CodeTestGenerator.generate_test ⟨⟩
        ⟨"gap_w", ["login"], 1/10, "medium", "test_login_flow", "tests/test_login.py", "flow"⟩
        "unknown_framework" "unit").test_code.length := by
  obtain ⟨h1, _, _, _, _, _, h7⟩ := unknown_selectors_fallback ⟨⟩ ⟨⟩ [] [] "all"
    ⟨"gap_w", ["login"], 1/10, "medium", "test_login_flow", "tests/test_login.py", "flow"⟩
    "unknown_framework" "unit"
  have h7c := h7 (by decide)
  exact ⟨h1 (by decide) (by decide) (by decide), h7c.1, h7c.2⟩

theorem analyze_code_complexity_eq (ra : RefactorAnalyzer)
    (symbols : List CodeSymbol) (ps : List BehaviorPattern) :
    ra.analyze_code symbols ps "complexity" = analyze_complexity symbols := rfl

/-- C8: under analysis_type complexity, a symbol lacking raw source text is
skipped without error, a reduce_complexity suggestion is emitted exactly
when the branching-keyword count exceeds the fixed threshold of 5, its
confidence is the monotone capped confidence of the raw count, and its
location is the file path and line joined by a colon. -/
theorem complexity_heuristic_rule (ra : RefactorAnalyzer) (sym : CodeSymbol)
    (ps : List BehaviorPattern) :
    complexity_threshold = 5
    ∧ (sym.source_code = none → ra.analyze_code [sym] ps "complexity" = [])
    ∧ (∀ src, sym.source_code = some src →
        ((ra.analyze_code [sym] ps "complexity" ≠ [] ↔ complexity_threshold < complexity_score src)
          ∧ ∀ s ∈ ra.analyze_code [sym] ps "complexity",
              s.suggestion_type = "reduce_complexity"
              ∧ s.confidence = complexity_confidence (complexity_score src)
              ∧ s.location = sym.file_path ++ ":" ++ toString sym.line))
    ∧ (∀ m n : ℕ, m ≤ n → complexity_confidence m ≤ complexity_confidence n)
    ∧ (∀ n : ℕ, complexity_confidence n ≤ 1) := by
  refine ⟨rfl, ?_, ?_, ?_, ?_⟩
  · intro h
    rw [analyze_code_complexity_eq]
    simp [analyze_complexity, h]
  · intro src h
    constructor
    · rw [analyze_code_complexity_eq]
      by_cases hlt : complexity_threshold < complexity_score src
      · simp [analyze_complexity, h, hlt]
      · simp [analyze_complexity, h, hlt]
    · intro s hs
      rw [analyze_code_complexity_eq] at hs
      by_cases hlt : complexity_threshold < complexity_score src
      · simp [analyze_complexity, h, hlt] at hs
        subst hs
        exact ⟨rfl, rfl, rfl⟩
      · simp [analyze_complexity, h, hlt] at hs
  · intro m n hmn
    unfold complexity_confidence
    gcongr
  · intro n
    exact min_le_left _ _

/-- Witness for C8 at concrete inputs: a symbol without source text yields
no suggestion, a symbol whose source holds more than five branching
keywords yields a suggestion, and the confidence function is monotone and
capped at one on sample counts. -/
theorem complexity_heuristic_rule_w :
    RefactorAnalyzer.analyze_code ⟨⟩
      [⟨"no_source", "function", "module.py", 10, none, none⟩] [] "complexity" = []
    ∧ RefactorAnalyzer.analyze_code ⟨⟩
        [⟨"very_complex", "function", "module.py", 10, none,
          some "if a: if b: if c: for x in y: for z in w: while True: if d: pass"⟩]
        [] "complexity" ≠ []
    ∧ complexity_confidence 6 ≤ complexity_confidence 9
    ∧ complexity_confidence 40 ≤ 1 := by
  obtain ⟨_, h2, _, _, _⟩ := complexity_heuristic_rule ⟨⟩
    ⟨"no_source", "function", "module.py", 10, none, none⟩ []
  obtain ⟨_, _, h3b, h4b, h5b⟩ := complexity_heuristic_rule ⟨⟩
    ⟨"very_complex", "function", "module.py", 10, none,
     some "if a: if b: if c: for x in y: for z in w: while True: if d: pass"⟩ []
  refine ⟨h2 rfl, ?_, h4b 6 9 (by omega), h5b 40⟩
  exact ((h3b _ rfl).1).mpr (by decide)

/-- C9: the dict-export of RefactorSuggestion maps the internal field
suggestion_type to the key "type" and carries no "suggestion_type" key, and
the dict-export of CoverageGap maps suggested_test_name to the key
"suggested_test" and suggested_test_file to "suggested_file"; the renaming
applies to every export. -/
theorem dict_export_key_renaming (r : RefactorSuggestion) (g : CoverageGap) :
    r.to_dict.map Prod.fst
      = ["suggestion_id", "type", "location", "reason", "confidence",
         "code_before", "code_after"]
    ∧ ("type", DVal.str r.suggestion_type) ∈ r.to_dict
    ∧ (∀ v, ("suggestion_type", v) ∉ r.to_dict)
    ∧ g.to_dict.map Prod.fst
      = ["gap_id", "pattern", "support", "priority", "suggested_test",
         "suggested_file", "description"]
    ∧ ("suggested_test", DVal.str g.suggested_test_name) ∈ g.to_dict
    ∧ ("suggested_file", DVal.str g.suggested_test_file) ∈ g.to_dict := by
  refine ⟨rfl, ?_, ?_, rfl, ?_, ?_⟩
  · simp [RefactorSuggestion.to_dict]
  · intro v hv
    simp [RefactorSuggestion.to_dict] at hv
  · simp [CoverageGap.to_dict]
  · simp [CoverageGap.to_dict]

/-- Witness for C9 at a concrete record: the export of a sample suggestion
has no "suggestion_type" key. -/
theorem dict_export_key_renaming_w :
    ("suggestion_type", DVal.null)
      ∉ RefactorSuggestion.to_dict ⟨"ref_w", "rename", "a.py:1", "sample", 1/2, "", ""⟩ :=
  (dict_export_key_renaming ⟨"ref_w", "rename", "a.py:1", "sample", 1/2, "", ""⟩
    ⟨"gap_w", [], 0, "low", "test_w_flow", "tests/test_w.py", "sample"⟩).2.2.1 DVal.null

/-- C10: the exported names TestSuggestion, GeneratedTest and
SuggestedUnitCase are one and the same record type, TestGenerator is the
same class as CodeTestGenerator, and SmartTestFileGenerator is the same
class as SmartPytestFileGenerator, so behavior cannot depend on which alias
a caller uses. -/
theorem export_aliases_identical :
    TestSuggestion = SuggestedUnitCase
    ∧ GeneratedTest = SuggestedUnitCase
    ∧ TestGenerator = CodeTestGenerator
    ∧ SmartTestFileGenerator = SmartPytestFileGenerator :=
  ⟨rfl, rfl, rfl, rfl⟩
